import Mathlib

/-!
Verification of the BrainLinkClient event-detection and telemetry core.

A shallow embedding of the repository's Python sources:
* `services/history_service.py` — tolerance-window matcher (`get_event_name_by`,
  `_search_events`),
* `services/brainlink_protocol_parser.py` — byte-stream protocol decoder,
* `services/shared_memory_service.py` — shared-memory channel (`start`, `stop`,
  `_write_int`),
* `ui/main_window.py` — fault-cascade derivation (`set_config_fault`),
* `models/eeg_models.py` — validated dataclasses.

Python integers are modelled as `Int` (unbounded), byte values as `Nat`,
Python lists as `List`, and code that can raise as `Except String`.
-/

/-- `models/eeg_models.py` `EegHistoryModel`: one history record, 11 EEG
fields plus an event label. -/
structure EegHistoryModel where
  attention : Int
  meditation : Int
  signal : Int
  delta : Int
  theta : Int
  low_alpha : Int
  high_alpha : Int
  low_beta : Int
  high_beta : Int
  low_gamma : Int
  high_gamma : Int
  event_name : String
deriving DecidableEq, Repr

/-- `models/eeg_models.py` `EegFaultModel`: 11 per-field tolerances. -/
structure EegFaultModel where
  attention : Int
  meditation : Int
  signal : Int
  delta : Int
  theta : Int
  low_alpha : Int
  high_alpha : Int
  low_beta : Int
  high_beta : Int
  low_gamma : Int
  high_gamma : Int
deriving DecidableEq, Repr

/-- `EegFaultModel.__post_init__`: negative tolerance fields are reset to 0. -/
def EegFaultModel.validate (f : EegFaultModel) : EegFaultModel :=
  ⟨max 0 f.attention, max 0 f.meditation, max 0 f.signal, max 0 f.delta,
   max 0 f.theta, max 0 f.low_alpha, max 0 f.high_alpha, max 0 f.low_beta,
   max 0 f.high_beta, max 0 f.low_gamma, max 0 f.high_gamma⟩

/-- All tolerance fields non-negative (the `EegFaultModel` dataclass invariant). -/
def EegFaultModel.Nonneg (f : EegFaultModel) : Prop :=
  0 ≤ f.attention ∧ 0 ≤ f.meditation ∧ 0 ≤ f.signal ∧ 0 ≤ f.delta ∧
  0 ≤ f.theta ∧ 0 ≤ f.low_alpha ∧ 0 ≤ f.high_alpha ∧ 0 ≤ f.low_beta ∧
  0 ≤ f.high_beta ∧ 0 ≤ f.low_gamma ∧ 0 ≤ f.high_gamma

instance (f : EegFaultModel) : Decidable f.Nonneg := by
  unfold EegFaultModel.Nonneg; infer_instance

/-- `models/eeg_models.py` `ConfigParams` (the two scalar profiles are not
needed by the matcher, which reads only `multi_count` and `eeg_faults`). -/
structure ConfigParams where
  multi_count : Int
  eeg_faults : List EegFaultModel
deriving DecidableEq, Repr

/-- The 11 EEG field names, used to quantify over fields. -/
inductive EegField where
  | attention | meditation | signal | delta | theta
  | lowAlpha | highAlpha | lowBeta | highBeta | lowGamma | highGamma
deriving DecidableEq, Repr

/-- Field projection on history records. -/
def EegHistoryModel.fld (x : EegHistoryModel) : EegField → Int
  | .attention => x.attention
  | .meditation => x.meditation
  | .signal => x.signal
  | .delta => x.delta
  | .theta => x.theta
  | .lowAlpha => x.low_alpha
  | .highAlpha => x.high_alpha
  | .lowBeta => x.low_beta
  | .highBeta => x.high_beta
  | .lowGamma => x.low_gamma
  | .highGamma => x.high_gamma

/-- Field update on history records. -/
def EegHistoryModel.setFld (x : EegHistoryModel) (F : EegField) (v : Int) :
    EegHistoryModel :=
  match F with
  | .attention => { x with attention := v }
  | .meditation => { x with meditation := v }
  | .signal => { x with signal := v }
  | .delta => { x with delta := v }
  | .theta => { x with theta := v }
  | .lowAlpha => { x with low_alpha := v }
  | .highAlpha => { x with high_alpha := v }
  | .lowBeta => { x with low_beta := v }
  | .highBeta => { x with high_beta := v }
  | .lowGamma => { x with low_gamma := v }
  | .highGamma => { x with high_gamma := v }

/-- Field projection on fault profiles. -/
def EegFaultModel.fld (f : EegFaultModel) : EegField → Int
  | .attention => f.attention
  | .meditation => f.meditation
  | .signal => f.signal
  | .delta => f.delta
  | .theta => f.theta
  | .lowAlpha => f.low_alpha
  | .highAlpha => f.high_alpha
  | .lowBeta => f.low_beta
  | .highBeta => f.high_beta
  | .lowGamma => f.low_gamma
  | .highGamma => f.high_gamma

/-! ## Tolerance matcher (`services/history_service.py`) -/

/-- One filtering block of `HistoryService._search_events`: when the
tolerance is nonzero, keep the records within the window
`current - tol ≤ value ≤ current + tol`; a zero tolerance leaves the list
untouched. -/
def stepFilter (tol cu : Int) (get : EegHistoryModel → Int)
    (rs : List EegHistoryModel) : List EegHistoryModel :=
  if tol ≠ 0 then
    rs.filter (fun x => decide (cu - tol ≤ get x) && decide (get x ≤ cu + tol))
  else rs

/-- `HistoryService._search_events`: the ten filtering blocks in source
order (attention, meditation, delta, theta, high beta, low beta, high
alpha, low alpha, high gamma, low gamma — the `signal` field is never
filtered), each followed by the early `return` on an empty intermediate
result. -/
def searchEvents (results : List EegHistoryModel) (current : EegHistoryModel)
    (fault : EegFaultModel) : List EegHistoryModel :=
  if results.isEmpty then results else
  let r1 := stepFilter fault.attention current.attention (·.attention) results
  if r1.isEmpty then r1 else
  let r2 := stepFilter fault.meditation current.meditation (·.meditation) r1
  if r2.isEmpty then r2 else
  let r3 := stepFilter fault.delta current.delta (·.delta) r2
  if r3.isEmpty then r3 else
  let r4 := stepFilter fault.theta current.theta (·.theta) r3
  if r4.isEmpty then r4 else
  let r5 := stepFilter fault.high_beta current.high_beta (·.high_beta) r4
  if r5.isEmpty then r5 else
  let r6 := stepFilter fault.low_beta current.low_beta (·.low_beta) r5
  if r6.isEmpty then r6 else
  let r7 := stepFilter fault.high_alpha current.high_alpha (·.high_alpha) r6
  if r7.isEmpty then r7 else
  let r8 := stepFilter fault.low_alpha current.low_alpha (·.low_alpha) r7
  if r8.isEmpty then r8 else
  let r9 := stepFilter fault.high_gamma current.high_gamma (·.high_gamma) r8
  if r9.isEmpty then r9 else
  stepFilter fault.low_gamma current.low_gamma (·.low_gamma) r9

/-- Single-field acceptance: a zero tolerance accepts everything, a nonzero
tolerance accepts values inside the window. -/
def fieldOk (tol cu v : Int) : Bool :=
  tol == 0 || (decide (cu - tol ≤ v) && decide (v ≤ cu + tol))

/-- The conjunction of the ten per-field window tests of `_search_events`,
in source order. -/
def matchesRec (current : EegHistoryModel) (fault : EegFaultModel)
    (x : EegHistoryModel) : Bool :=
  fieldOk fault.attention current.attention x.attention &&
  (fieldOk fault.meditation current.meditation x.meditation &&
  (fieldOk fault.delta current.delta x.delta &&
  (fieldOk fault.theta current.theta x.theta &&
  (fieldOk fault.high_beta current.high_beta x.high_beta &&
  (fieldOk fault.low_beta current.low_beta x.low_beta &&
  (fieldOk fault.high_alpha current.high_alpha x.high_alpha &&
  (fieldOk fault.low_alpha current.low_alpha x.low_alpha &&
  (fieldOk fault.high_gamma current.high_gamma x.high_gamma &&
  fieldOk fault.low_gamma current.low_gamma x.low_gamma))))))))

/-- `counts['name']` of `get_event_name_by`: how many candidates carry a
given event label. -/
def countEvent (results : List EegHistoryModel) (name : String) : Nat :=
  results.countP (fun x => x.event_name == name)

/-- Python `max(items, key=...)` over a non-empty list: keep the current
best, replace it only on a strictly greater count, so the first maximal
element wins. -/
def pickMax : List (String × Nat) → String × Nat
  | [] => ("", 0)
  | h :: t => t.foldl (fun acc p => if p.2 > acc.2 then p else acc) h

/-- The `counts` dict of `get_event_name_by` in insertion order. -/
def eventCounts (results : List EegHistoryModel) : List (String × Nat) :=
  [("ml", countEvent results "ml"), ("mr", countEvent results "mr"),
   ("mu", countEvent results "mu"), ("md", countEvent results "md"),
   ("stop", countEvent results "stop")]

/-- `max(counts.items(), key=lambda x: x[1])`. -/
def maxEvent (results : List EegHistoryModel) : String × Nat :=
  pickMax (eventCounts results)

/-- The final loop of `get_event_name_by`: walk the (already reversed)
round results, skip empty rounds, and return the majority label of the
first round whose maximal count is positive; otherwise the empty label. -/
def scanResults : List (List EegHistoryModel) → String
  | [] => ""
  | results :: rest =>
    if results.isEmpty then scanResults rest
    else
      let m := maxEvent results
      if m.2 > 0 then m.1 else scanResults rest

/-- The `for i in range(config.multi_count)` loop of `get_event_name_by`,
with the Python list accesses made explicit: `results_list[i - 1]` raises
`IndexError` when out of range (modelled as `Except.error`), and the
filtered set is appended only when `i < len(faults)`. The first argument
counts the remaining iterations. -/
def loopAux (cur : EegHistoryModel) (faults : List EegFaultModel) :
    Nat → Nat → List EegHistoryModel → List (List EegHistoryModel) →
    Except String (List (List EegHistoryModel))
  | 0, _, _, rl => Except.ok rl
  | fuel + 1, i, cr, rl =>
    if i = 0 then
      loopAux cur faults fuel (i + 1) cr
        (match faults[i]? with
         | some f => rl ++ [searchEvents cr cur f]
         | none => rl)
    else
      match rl[i - 1]? with
      | some cr2 =>
        loopAux cur faults fuel (i + 1) cr2
          (match faults[i]? with
           | some f => rl ++ [searchEvents cr2 cur f]
           | none => rl)
      | none => Except.error "IndexError"

/-- `HistoryService.get_event_name_by`: empty history short-circuits to
`""`; otherwise run the cascade loop over `reversed(config.eeg_faults)`,
reverse the collected round results and scan them for a majority. -/
def getEventNameBy (history : List EegHistoryModel)
    (current : EegHistoryModel) (config : ConfigParams) :
    Except String String :=
  if history.isEmpty then Except.ok "" else
    let faults := config.eeg_faults.reverse
    match loopAux current faults config.multi_count.toNat 0 history [] with
    | Except.error e => Except.error e
    | Except.ok rl => Except.ok (scanResults rl.reverse)

/-- The cascade the loop actually builds when every iteration appends: each
round filters the previous round's output with the next fault profile. -/
def cascadeGo (cur : EegHistoryModel) :
    List EegHistoryModel → List EegFaultModel → List (List EegHistoryModel)
  | _, [] => []
  | cr, f :: fs =>
    let r := searchEvents cr cur f
    r :: cascadeGo cur r fs

/-- Modelled from the spec: "Round 0 filters the *entire* history log
against profile[N-1] (the widest/last profile). Round i (i=1..N-1) filters
the *previous round's output* against profile[N-1-i]" — the rounds over the
reversed profile list, each round filtering the previous round's output. -/
def specRoundsAux (cur : EegHistoryModel) :
    List EegHistoryModel → List EegFaultModel → List (List EegHistoryModel)
  | _, [] => []
  | cr, f :: fs =>
    let r := cr.filter (matchesRec cur f)
    r :: specRoundsAux cur r fs

/-- Modelled from the spec: "the result is the majority event label of the
first round whose candidate set is non-empty and whose majority count is
greater than 0"; otherwise the empty label. -/
def specFirstMajority : List (List EegHistoryModel) → String
  | [] => ""
  | r :: rest =>
    if r ≠ [] ∧ (maxEvent r).2 > 0 then (maxEvent r).1
    else specFirstMajority rest

/-- Modelled from the spec: the whole classification — build the N rounds
against the reversed profile cascade, consult them in reversed
(narrowest-first) order, return the first positive majority, and return the
empty label for an empty history log. -/
def specClassify (history : List EegHistoryModel) (current : EegHistoryModel)
    (profiles : List EegFaultModel) : String :=
  if history = [] then ""
  else specFirstMajority ((specRoundsAux current history profiles.reverse).reverse)

/-! ## Protocol decoder (`services/brainlink_protocol_parser.py`) -/

/-- `models/eeg_models.py` `BrainLinkModel` (decoded EEG frame, all fields
natural numbers since the decoder only produces non-negative values). -/
structure BrainLinkModel where
  attention : Nat
  meditation : Nat
  signal : Nat
  delta : Nat
  theta : Nat
  low_alpha : Nat
  high_alpha : Nat
  low_beta : Nat
  high_beta : Nat
  low_gamma : Nat
  high_gamma : Nat
deriving DecidableEq, Repr

/-- `BrainLinkModel.__post_init__` clamping: attention/meditation to
`[0, 100]`, signal to `[0, 200]`, band powers to `[0, 0xFFFFFF]` (the lower
bound is vacuous over `Nat`). -/
def mkBrainLinkModel (att med sig d t la ha lb hb lg hg : Nat) :
    BrainLinkModel :=
  ⟨min att 100, min med 100, min sig 200, min d 16777215, min t 16777215,
   min la 16777215, min ha 16777215, min lb 16777215, min hb 16777215,
   min lg 16777215, min hg 16777215⟩

/-- `int.from_bytes(-, 'big')` on a 3-byte slice. -/
def be3 (b0 b1 b2 : Nat) : Nat := b0 * 65536 + b1 * 256 + b2

/-- `int.from_bytes(-, 'big', signed=True)` on a 2-byte slice. -/
def sbe2 (b0 b1 : Nat) : Int :=
  let u := b0 * 256 + b1
  if u < 32768 then (u : Int) else (u : Int) - 65536

/-- The EEG header test of `_parse_eeg_packet`:
`idx + 5 < len(buffer) and buffer[idx:idx+4] == AA AA 20 02`. -/
def eegHeaderAt (buf : List Nat) (idx : Nat) : Bool :=
  decide (idx + 5 < buf.length) && (buf.getD idx 0 == 0xAA) &&
    (buf.getD (idx + 1) 0 == 0xAA) && (buf.getD (idx + 2) 0 == 0x20) &&
    (buf.getD (idx + 3) 0 == 0x02)

/-- The payload decode of `_parse_eeg_packet`: slice 50 bytes starting at
`idx + 4`, take attention at payload byte 2, meditation at byte 4, and
eight 3-byte big-endian band powers at bytes 6..29, each band guarded by
the source's `len(data) > k` checks. -/
def decodeEegAt (buf : List Nat) (idx : Nat) : BrainLinkModel :=
  let data := (buf.drop (idx + 4)).take 50
  mkBrainLinkModel
    (data.getD 2 0)
    (if 4 < data.length then data.getD 4 0 else 0)
    0
    (if 8 < data.length then be3 (data.getD 6 0) (data.getD 7 0) (data.getD 8 0) else 0)
    (if 11 < data.length then be3 (data.getD 9 0) (data.getD 10 0) (data.getD 11 0) else 0)
    (if 14 < data.length then be3 (data.getD 12 0) (data.getD 13 0) (data.getD 14 0) else 0)
    (if 17 < data.length then be3 (data.getD 15 0) (data.getD 16 0) (data.getD 17 0) else 0)
    (if 20 < data.length then be3 (data.getD 18 0) (data.getD 19 0) (data.getD 20 0) else 0)
    (if 23 < data.length then be3 (data.getD 21 0) (data.getD 22 0) (data.getD 23 0) else 0)
    (if 26 < data.length then be3 (data.getD 24 0) (data.getD 25 0) (data.getD 26 0) else 0)
    (if 29 < data.length then be3 (data.getD 27 0) (data.getD 28 0) (data.getD 29 0) else 0)

/-- The scan loop of `_parse_eeg_packet`: `while idx < len(buffer) - 60`,
return the decode of the first header match whose 50-byte payload fits
(`packet_start + 50 <= len(buffer)`), else advance `idx` by one. The fuel
argument bounds the number of iterations; callers pass `buf.length`, which
is never exhausted before the `while` condition fails. -/
def parseEegLoop (buf : List Nat) : Nat → Nat → Option BrainLinkModel
  | 0, _ => none
  | fuel + 1, idx =>
    if idx < buf.length - 60 then
      if eegHeaderAt buf idx then
        if idx + 54 ≤ buf.length then some (decodeEegAt buf idx)
        else parseEegLoop buf fuel (idx + 1)
      else parseEegLoop buf fuel (idx + 1)
    else none

/-- `BrainLinkProtocolParser._parse_eeg_packet`. -/
def parseEegPacket (buf : List Nat) : Option BrainLinkModel :=
  parseEegLoop buf buf.length 0

/-- The gyro header test of `_parse_gyro_packet`:
`idx + 10 < len(buffer) and buffer[idx:idx+4] == AA AA 07 03`. -/
def gyroHeaderAt (buf : List Nat) (idx : Nat) : Bool :=
  decide (idx + 10 < buf.length) && (buf.getD idx 0 == 0xAA) &&
    (buf.getD (idx + 1) 0 == 0xAA) && (buf.getD (idx + 2) 0 == 0x07) &&
    (buf.getD (idx + 3) 0 == 0x03)

/-- The decode of `_parse_gyro_packet`: three signed big-endian 16-bit
values at `idx+4`, `idx+6`, `idx+8`. -/
def decodeGyroAt (buf : List Nat) (idx : Nat) : Int × Int × Int :=
  (sbe2 (buf.getD (idx + 4) 0) (buf.getD (idx + 5) 0),
   sbe2 (buf.getD (idx + 6) 0) (buf.getD (idx + 7) 0),
   sbe2 (buf.getD (idx + 8) 0) (buf.getD (idx + 9) 0))

/-- The scan loop of `_parse_gyro_packet`: `while idx < len(buffer) - 15`,
return the decode of the first header match, else advance by one. -/
def parseGyroLoop (buf : List Nat) : Nat → Nat → Option (Int × Int × Int)
  | 0, _ => none
  | fuel + 1, idx =>
    if idx < buf.length - 15 then
      if gyroHeaderAt buf idx then some (decodeGyroAt buf idx)
      else parseGyroLoop buf fuel (idx + 1)
    else none

/-- `BrainLinkProtocolParser._parse_gyro_packet`. -/
def parseGyroPacket (buf : List Nat) : Option (Int × Int × Int) :=
  parseGyroLoop buf buf.length 0

/-- The parser's only state: `self.buffer`. -/
structure ParserState where
  buffer : List Nat
deriving DecidableEq, Repr

/-- `BrainLinkProtocolParser.parse_data`: extend the buffer, scan for an
EEG packet and a gyro packet, then truncate the buffer to its last 2000
bytes. -/
def parseData (st : ParserState) (data : List Nat) :
    (Option BrainLinkModel × Option (Int × Int × Int)) × ParserState :=
  let buf := st.buffer ++ data
  let eeg := parseEegPacket buf
  let gyro := parseGyroPacket buf
  let buf2 := if buf.length > 2000 then buf.drop (buf.length - 2000) else buf
  ((eeg, gyro), ⟨buf2⟩)

/-- A full EEG frame: header, type code, 50 payload bytes. -/
def eegFrame (payload : List Nat) : List Nat :=
  0xAA :: 0xAA :: 0x20 :: 0x02 :: payload

/-- The sample a valid 50-byte payload encodes, for comparing against the
decoder output. -/
def encodedEegSample (payload : List Nat) : BrainLinkModel :=
  ⟨payload.getD 2 0, payload.getD 4 0, 0,
   be3 (payload.getD 6 0) (payload.getD 7 0) (payload.getD 8 0),
   be3 (payload.getD 9 0) (payload.getD 10 0) (payload.getD 11 0),
   be3 (payload.getD 12 0) (payload.getD 13 0) (payload.getD 14 0),
   be3 (payload.getD 15 0) (payload.getD 16 0) (payload.getD 17 0),
   be3 (payload.getD 18 0) (payload.getD 19 0) (payload.getD 20 0),
   be3 (payload.getD 21 0) (payload.getD 22 0) (payload.getD 23 0),
   be3 (payload.getD 24 0) (payload.getD 25 0) (payload.getD 26 0),
   be3 (payload.getD 27 0) (payload.getD 28 0) (payload.getD 29 0)⟩

/-- A full EEG-frame match at `idx`: the scan-window condition, the header
test, and the payload-availability test — exactly the conditions under
which `_parse_eeg_packet` returns a sample decoded at `idx`. -/
def eegFullMatchAt (buf : List Nat) (idx : Nat) : Prop :=
  idx < buf.length - 60 ∧ eegHeaderAt buf idx = true ∧ idx + 54 ≤ buf.length

instance (buf : List Nat) (idx : Nat) : Decidable (eegFullMatchAt buf idx) := by
  unfold eegFullMatchAt; infer_instance

/-- A gyro-frame match at `idx`: the scan-window condition and the header
test of `_parse_gyro_packet`. -/
def gyroFullMatchAt (buf : List Nat) (idx : Nat) : Prop :=
  idx < buf.length - 15 ∧ gyroHeaderAt buf idx = true

instance (buf : List Nat) (idx : Nat) : Decidable (gyroFullMatchAt buf idx) := by
  unfold gyroFullMatchAt; infer_instance

/-! ## Shared memory channel (`services/shared_memory_service.py`) -/

/-- The OS view of the single well-known segment name `brainlink_data`:
which segment id (if any) the name is currently linked to, plus a counter
for fresh ids. -/
structure ShmWorld where
  registered : Option Nat
  nextId : Nat
deriving DecidableEq, Repr

/-- Per-instance state of `SharedMemoryService`: the attached segment,
the `_we_created_shm` ownership flag, and `is_running`. -/
structure ShmService where
  shm : Option Nat
  we_created_shm : Bool
  is_running : Bool
deriving DecidableEq, Repr

/-- `SharedMemoryService.__init__` field values. -/
def ShmService.init : ShmService := ⟨none, false, false⟩

/-- `SharedMemoryService.start`: no-op when already running; otherwise
best-effort unlink of an existing segment (`cleanupOk` is whether the OS
lets the unlink succeed — it fails with `OSError` on Windows while another
process has the segment mapped, and that failure is caught), then create
the segment (setting `_we_created_shm = True`), or on `FileExistsError`
attach to the surviving segment with `_we_created_shm = False`. -/
def ShmService.start (w : ShmWorld) (s : ShmService) (cleanupOk : Bool) :
    ShmWorld × ShmService :=
  if s.is_running then (w, s)
  else
    let w1 :=
      match w.registered with
      | some _ => if cleanupOk then { w with registered := none } else w
      | none => w
    match w1.registered with
    | none =>
      ({ registered := some w1.nextId, nextId := w1.nextId + 1 },
       { shm := some w1.nextId, we_created_shm := true, is_running := true })
    | some sid => (w1, { shm := some sid, we_created_shm := false, is_running := true })

/-- `SharedMemoryService.stop`: no-op when not running; otherwise close the
mapping and, only when `_we_created_shm` holds, unlink the name (unlink
failures are caught and ignored, so removing an already-absent binding is
harmless). -/
def ShmService.stop (w : ShmWorld) (s : ShmService) : ShmWorld × ShmService :=
  if ¬ s.is_running then (w, s)
  else
    let w1 :=
      match s.shm with
      | some _ => if s.we_created_shm then { w with registered := none } else w
      | none => w
    (w1, { shm := none, we_created_shm := s.we_created_shm, is_running := false })

/-- The Python values `_write_int` may receive: ints, (finite) floats
modelled as rationals, strings carrying the result of `float(s)` (`none`
when unparseable), `None`, and other objects carrying the result of
`int(value)` (`none` when that raises `ValueError`/`TypeError`). -/
inductive PyValue where
  | vint (n : Int)
  | vfloat (q : Rat)
  | vstr (conv : Option Rat)
  | vnone
  | vobj (conv : Option Int)
deriving DecidableEq, Repr

/-- Python 3 `round` on a float: round half to even. -/
def roundHalfEven (q : Rat) : Int :=
  let f := q.floor
  if q - f < 1 / 2 then f
  else if q - f > 1 / 2 then f + 1
  else if f % 2 = 0 then f else f + 1

/-- Python `int` on a float: truncation toward zero. -/
def intTrunc (q : Rat) : Int := Int.tdiv q.num (q.den : Int)

/-- The coercion chain of `_write_int`: `None` becomes 0, floats are
rounded, strings go through `int(float(value))` with failures becoming 0,
anything else goes through `int(value)` with `ValueError`/`TypeError`
becoming 0. -/
def coerceToInt : PyValue → Int
  | .vnone => 0
  | .vfloat q => roundHalfEven q
  | .vstr none => 0
  | .vstr (some q) => intTrunc q
  | .vint n => n
  | .vobj none => 0
  | .vobj (some n) => n

/-- The four bytes `struct.pack('i', n)` produces (little-endian two's
complement). -/
def int32LE (n : Int) : List Nat :=
  let u := (n % 4294967296).toNat
  [u % 256, u / 256 % 256, u / 65536 % 256, u / 16777216 % 256]

/-- `struct.pack('i', value)`: raises `struct.error` unless the value fits
a signed 32-bit int. -/
def structPackI (n : Int) : Except String (List Nat) :=
  if -2147483648 ≤ n ∧ n < 2147483648 then Except.ok (int32LE n)
  else Except.error "struct.error"

/-- `SharedMemoryService._write_int` on an attached segment buffer: coerce
the value, pack it, and overwrite the four bytes at `offset * 4` (the
memoryview slice assignment raises `ValueError` when the slice does not
lie inside the segment). -/
def writeInt (buf : List Nat) (offset : Nat) (v : PyValue) :
    Except String (List Nat) :=
  match structPackI (coerceToInt v) with
  | Except.error e => Except.error e
  | Except.ok bs =>
    if offset * 4 + 4 ≤ buf.length then
      Except.ok (buf.take (offset * 4) ++ bs ++ buf.drop (offset * 4 + 4))
    else Except.error "ValueError"

/-! ## Fault cascade derivation (`ui/main_window.py` `set_config_fault`) -/

/-- One derived level: `EegFaultModel(attention=int(prev.attention *
multi.attention), ...)` over the ten listed fields — `signal` is not
passed, so it takes the dataclass default 0; the constructor then applies
`__post_init__` validation. -/
def nextFault (prev multi : EegFaultModel) : EegFaultModel :=
  EegFaultModel.validate
    ⟨prev.attention * multi.attention, prev.meditation * multi.meditation, 0,
     prev.delta * multi.delta, prev.theta * multi.theta,
     prev.low_alpha * multi.low_alpha, prev.high_alpha * multi.high_alpha,
     prev.low_beta * multi.low_beta, prev.high_beta * multi.high_beta,
     prev.low_gamma * multi.low_gamma, prev.high_gamma * multi.high_gamma⟩

/-- The `for i in range(1, multi_count)` loop of `set_config_fault`: each
iteration appends `nextFault` of the previous (last) element. -/
def deriveLoop (multi : EegFaultModel) : Nat → EegFaultModel → List EegFaultModel
  | 0, _ => []
  | n + 1, prev =>
    let nf := nextFault prev multi
    nf :: deriveLoop multi n nf

/-- `MainWindow.set_config_fault`: `eeg_faults = [config]` followed by the
derivation loop (`multi_count - 1` iterations; none when
`multi_count <= 1`). -/
def deriveFaults (base multi : EegFaultModel) (multi_count : Int) :
    List EegFaultModel :=
  base :: deriveLoop multi (multi_count.toNat - 1) base

/-! ## Concrete sample data for witnesses and counterexamples -/

/-- A labeled history record (the spec's end-to-end scenario values). -/
def recA : EegHistoryModel :=
  ⟨70, 40, 3, 100000, 80000, 50000, 30000, 20000, 15000, 10000, 8000, "mr"⟩

/-- A current sample near `recA` (attention differs by 2). -/
def recB : EegHistoryModel :=
  ⟨72, 40, 3, 100000, 80000, 50000, 30000, 20000, 15000, 10000, 8000, ""⟩

/-- A profile with attention tolerance 5 and a few other nonzero windows. -/
def faultA : EegFaultModel :=
  ⟨5, 10, 0, 1000, 1000, 1000, 1000, 1000, 1000, 1000, 1000⟩

/-- A profile whose only nonzero tolerance is `signal = 1`. -/
def faultSig : EegFaultModel := ⟨0, 0, 1, 0, 0, 0, 0, 0, 0, 0, 0⟩

/-- An all-zero record labeled `ml` (signal 0). -/
def recSig0 : EegHistoryModel := ⟨0, 0, 0, 0, 0, 0, 0, 0, 0, 0, 0, "ml"⟩

/-- Like `recSig0` but with signal 2 — outside `faultSig`'s signal window. -/
def recSig2 : EegHistoryModel := ⟨0, 0, 2, 0, 0, 0, 0, 0, 0, 0, 0, "ml"⟩

/-- A 50-byte EEG payload: attention 70 at byte 2, meditation 40 at byte 4,
delta bytes (1,2,3) at 6..8, all other bytes zero. -/
def payloadW : List Nat :=
  [0, 0, 70, 0, 40, 0, 1, 2, 3] ++ List.replicate 41 0

/-- Seven trailing slack bytes. -/
def padW : List Nat := [0, 0, 0, 0, 0, 0, 0]

/-- Like `payloadW` but with attention byte 71. -/
def payloadX : List Nat :=
  [0, 0, 71, 0, 40, 0, 1, 2, 3] ++ List.replicate 41 0

/-- An all-zero 50-byte payload. -/
def payloadZ : List Nat := List.replicate 50 0

/-- A complete all-zero EEG frame followed by seven slack bytes (61 bytes). -/
def bufY : List Nat := eegFrame payloadZ ++ padW

/-- A complete gyro frame followed by six slack bytes (16 bytes). -/
def gyroBufY : List Nat := 0xAA :: 0xAA :: 0x07 :: 0x03 :: List.replicate 12 0

instance : Inhabited EegFaultModel := ⟨⟨0, 0, 0, 0, 0, 0, 0, 0, 0, 0, 0⟩⟩

/-- A multiplier profile (signal multiplier 0, all others 2). -/
def faultM : EegFaultModel := ⟨2, 2, 0, 2, 2, 2, 2, 2, 2, 2, 2⟩

/-! ## Derived quantities used by the majority-vote analysis -/

/-- The running accumulator of the Python `max(...)` fold: the maximum of
the counts seen so far. -/
def maxSnd (h : String × Nat) (t : List (String × Nat)) : Nat :=
  t.foldl (fun m p => max m p.2) h.2

/-- The maximal count among the five event labels. -/
def maxCountOf (results : List EegHistoryModel) : Nat :=
  max (countEvent results "ml") (max (countEvent results "mr")
    (max (countEvent results "mu")
      (max (countEvent results "md") (countEvent results "stop"))))

/-! ## Lemmas and claim theorems -/

lemma stepFilter_eq (tol cu : Int) (get : EegHistoryModel → Int)
    (rs : List EegHistoryModel) :
    stepFilter tol cu get rs = rs.filter (fun x => fieldOk tol cu (get x)) := by
  unfold stepFilter fieldOk
  by_cases h : tol = 0
  · simp [h]
  · simp only [if_pos h, h, beq_iff_eq, if_neg h]
    refine (List.filter_congr ?_).symm
    intro a _
    simp [h]

lemma guard_chain (r : List EegHistoryModel)
    (K : List EegHistoryModel → List EegHistoryModel)
    (q : EegHistoryModel → Bool) (hK : ∀ l, K l = l.filter q) :
    (if r.isEmpty then r else K r) = r.filter q := by
  cases r with
  | nil => simp
  | cons a t => simpa using hK (a :: t)

lemma filter_filter' (l : List EegHistoryModel) (p q : EegHistoryModel → Bool) :
    (l.filter p).filter q = l.filter (fun x => p x && q x) := by
  rw [List.filter_filter]
  exact List.filter_congr (fun a _ => by rw [Bool.and_comm])

/-- `_search_events` computes exactly the conjunctive per-field filter: the
early exits do not change the result. -/
theorem searchEvents_eq_filter (rs : List EegHistoryModel)
    (cur : EegHistoryModel) (f : EegFaultModel) :
    searchEvents rs cur f = rs.filter (matchesRec cur f) := by
  have e10 : ∀ l, stepFilter f.low_gamma cur.low_gamma (·.low_gamma) l =
      l.filter (fun x => fieldOk f.low_gamma cur.low_gamma x.low_gamma) :=
    fun l => stepFilter_eq _ _ _ l
  have e9 : ∀ l,
      (let r := stepFilter f.high_gamma cur.high_gamma (·.high_gamma) l
       if r.isEmpty then r else
         stepFilter f.low_gamma cur.low_gamma (·.low_gamma) r) =
      l.filter (fun x => fieldOk f.high_gamma cur.high_gamma x.high_gamma &&
        fieldOk f.low_gamma cur.low_gamma x.low_gamma) := by
    intro l
    show (if (stepFilter f.high_gamma cur.high_gamma (·.high_gamma) l).isEmpty
        then stepFilter f.high_gamma cur.high_gamma (·.high_gamma) l else _) = _
    rw [guard_chain _ _ _ e10, stepFilter_eq, filter_filter']
  have e8 : ∀ l,
      (let r := stepFilter f.low_alpha cur.low_alpha (·.low_alpha) l
       if r.isEmpty then r else
       let r9 := stepFilter f.high_gamma cur.high_gamma (·.high_gamma) r
       if r9.isEmpty then r9 else
         stepFilter f.low_gamma cur.low_gamma (·.low_gamma) r9) =
      l.filter (fun x => fieldOk f.low_alpha cur.low_alpha x.low_alpha &&
        (fieldOk f.high_gamma cur.high_gamma x.high_gamma &&
         fieldOk f.low_gamma cur.low_gamma x.low_gamma)) := by
    intro l
    show (if (stepFilter f.low_alpha cur.low_alpha (·.low_alpha) l).isEmpty
        then stepFilter f.low_alpha cur.low_alpha (·.low_alpha) l else _) = _
    rw [guard_chain _ _ _ e9, stepFilter_eq, filter_filter']
  have e7 : ∀ l,
      (let r := stepFilter f.high_alpha cur.high_alpha (·.high_alpha) l
       if r.isEmpty then r else
       let r8 := stepFilter f.low_alpha cur.low_alpha (·.low_alpha) r
       if r8.isEmpty then r8 else
       let r9 := stepFilter f.high_gamma cur.high_gamma (·.high_gamma) r8
       if r9.isEmpty then r9 else
         stepFilter f.low_gamma cur.low_gamma (·.low_gamma) r9) =
      l.filter (fun x => fieldOk f.high_alpha cur.high_alpha x.high_alpha &&
        (fieldOk f.low_alpha cur.low_alpha x.low_alpha &&
        (fieldOk f.high_gamma cur.high_gamma x.high_gamma &&
         fieldOk f.low_gamma cur.low_gamma x.low_gamma))) := by
    intro l
    show (if (stepFilter f.high_alpha cur.high_alpha (·.high_alpha) l).isEmpty
        then stepFilter f.high_alpha cur.high_alpha (·.high_alpha) l else _) = _
    rw [guard_chain _ _ _ e8, stepFilter_eq, filter_filter']
  have e6 : ∀ l,
      (let r := stepFilter f.low_beta cur.low_beta (·.low_beta) l
       if r.isEmpty then r else
       let r7 := stepFilter f.high_alpha cur.high_alpha (·.high_alpha) r
       if r7.isEmpty then r7 else
       let r8 := stepFilter f.low_alpha cur.low_alpha (·.low_alpha) r7
       if r8.isEmpty then r8 else
       let r9 := stepFilter f.high_gamma cur.high_gamma (·.high_gamma) r8
       if r9.isEmpty then r9 else
         stepFilter f.low_gamma cur.low_gamma (·.low_gamma) r9) =
      l.filter (fun x => fieldOk f.low_beta cur.low_beta x.low_beta &&
        (fieldOk f.high_alpha cur.high_alpha x.high_alpha &&
        (fieldOk f.low_alpha cur.low_alpha x.low_alpha &&
        (fieldOk f.high_gamma cur.high_gamma x.high_gamma &&
         fieldOk f.low_gamma cur.low_gamma x.low_gamma)))) := by
    intro l
    show (if (stepFilter f.low_beta cur.low_beta (·.low_beta) l).isEmpty
        then stepFilter f.low_beta cur.low_beta (·.low_beta) l else _) = _
    rw [guard_chain _ _ _ e7, stepFilter_eq, filter_filter']
  have e5 : ∀ l,
      (let r := stepFilter f.high_beta cur.high_beta (·.high_beta) l
       if r.isEmpty then r else
       let r6 := stepFilter f.low_beta cur.low_beta (·.low_beta) r
       if r6.isEmpty then r6 else
       let r7 := stepFilter f.high_alpha cur.high_alpha (·.high_alpha) r6
       if r7.isEmpty then r7 else
       let r8 := stepFilter f.low_alpha cur.low_alpha (·.low_alpha) r7
       if r8.isEmpty then r8 else
       let r9 := stepFilter f.high_gamma cur.high_gamma (·.high_gamma) r8
       if r9.isEmpty then r9 else
         stepFilter f.low_gamma cur.low_gamma (·.low_gamma) r9) =
      l.filter (fun x => fieldOk f.high_beta cur.high_beta x.high_beta &&
        (fieldOk f.low_beta cur.low_beta x.low_beta &&
        (fieldOk f.high_alpha cur.high_alpha x.high_alpha &&
        (fieldOk f.low_alpha cur.low_alpha x.low_alpha &&
        (fieldOk f.high_gamma cur.high_gamma x.high_gamma &&
         fieldOk f.low_gamma cur.low_gamma x.low_gamma))))) := by
    intro l
    show (if (stepFilter f.high_beta cur.high_beta (·.high_beta) l).isEmpty
        then stepFilter f.high_beta cur.high_beta (·.high_beta) l else _) = _
    rw [guard_chain _ _ _ e6, stepFilter_eq, filter_filter']
  have e4 : ∀ l,
      (let r := stepFilter f.theta cur.theta (·.theta) l
       if r.isEmpty then r else
       let r5 := stepFilter f.high_beta cur.high_beta (·.high_beta) r
       if r5.isEmpty then r5 else
       let r6 := stepFilter f.low_beta cur.low_beta (·.low_beta) r5
       if r6.isEmpty then r6 else
       let r7 := stepFilter f.high_alpha cur.high_alpha (·.high_alpha) r6
       if r7.isEmpty then r7 else
       let r8 := stepFilter f.low_alpha cur.low_alpha (·.low_alpha) r7
       if r8.isEmpty then r8 else
       let r9 := stepFilter f.high_gamma cur.high_gamma (·.high_gamma) r8
       if r9.isEmpty then r9 else
         stepFilter f.low_gamma cur.low_gamma (·.low_gamma) r9) =
      l.filter (fun x => fieldOk f.theta cur.theta x.theta &&
        (fieldOk f.high_beta cur.high_beta x.high_beta &&
        (fieldOk f.low_beta cur.low_beta x.low_beta &&
        (fieldOk f.high_alpha cur.high_alpha x.high_alpha &&
        (fieldOk f.low_alpha cur.low_alpha x.low_alpha &&
        (fieldOk f.high_gamma cur.high_gamma x.high_gamma &&
         fieldOk f.low_gamma cur.low_gamma x.low_gamma)))))) := by
    intro l
    show (if (stepFilter f.theta cur.theta (·.theta) l).isEmpty
        then stepFilter f.theta cur.theta (·.theta) l else _) = _
    rw [guard_chain _ _ _ e5, stepFilter_eq, filter_filter']
  have e3 : ∀ l,
      (let r := stepFilter f.delta cur.delta (·.delta) l
       if r.isEmpty then r else
       let r4 := stepFilter f.theta cur.theta (·.theta) r
       if r4.isEmpty then r4 else
       let r5 := stepFilter f.high_beta cur.high_beta (·.high_beta) r4
       if r5.isEmpty then r5 else
       let r6 := stepFilter f.low_beta cur.low_beta (·.low_beta) r5
       if r6.isEmpty then r6 else
       let r7 := stepFilter f.high_alpha cur.high_alpha (·.high_alpha) r6
       if r7.isEmpty then r7 else
       let r8 := stepFilter f.low_alpha cur.low_alpha (·.low_alpha) r7
       if r8.isEmpty then r8 else
       let r9 := stepFilter f.high_gamma cur.high_gamma (·.high_gamma) r8
       if r9.isEmpty then r9 else
         stepFilter f.low_gamma cur.low_gamma (·.low_gamma) r9) =
      l.filter (fun x => fieldOk f.delta cur.delta x.delta &&
        (fieldOk f.theta cur.theta x.theta &&
        (fieldOk f.high_beta cur.high_beta x.high_beta &&
        (fieldOk f.low_beta cur.low_beta x.low_beta &&
        (fieldOk f.high_alpha cur.high_alpha x.high_alpha &&
        (fieldOk f.low_alpha cur.low_alpha x.low_alpha &&
        (fieldOk f.high_gamma cur.high_gamma x.high_gamma &&
         fieldOk f.low_gamma cur.low_gamma x.low_gamma))))))) := by
    intro l
    show (if (stepFilter f.delta cur.delta (·.delta) l).isEmpty
        then stepFilter f.delta cur.delta (·.delta) l else _) = _
    rw [guard_chain _ _ _ e4, stepFilter_eq, filter_filter']
  have e2 : ∀ l,
      (let r := stepFilter f.meditation cur.meditation (·.meditation) l
       if r.isEmpty then r else
       let r3 := stepFilter f.delta cur.delta (·.delta) r
       if r3.isEmpty then r3 else
       let r4 := stepFilter f.theta cur.theta (·.theta) r3
       if r4.isEmpty then r4 else
       let r5 := stepFilter f.high_beta cur.high_beta (·.high_beta) r4
       if r5.isEmpty then r5 else
       let r6 := stepFilter f.low_beta cur.low_beta (·.low_beta) r5
       if r6.isEmpty then r6 else
       let r7 := stepFilter f.high_alpha cur.high_alpha (·.high_alpha) r6
       if r7.isEmpty then r7 else
       let r8 := stepFilter f.low_alpha cur.low_alpha (·.low_alpha) r7
       if r8.isEmpty then r8 else
       let r9 := stepFilter f.high_gamma cur.high_gamma (·.high_gamma) r8
       if r9.isEmpty then r9 else
         stepFilter f.low_gamma cur.low_gamma (·.low_gamma) r9) =
      l.filter (fun x => fieldOk f.meditation cur.meditation x.meditation &&
        (fieldOk f.delta cur.delta x.delta &&
        (fieldOk f.theta cur.theta x.theta &&
        (fieldOk f.high_beta cur.high_beta x.high_beta &&
        (fieldOk f.low_beta cur.low_beta x.low_beta &&
        (fieldOk f.high_alpha cur.high_alpha x.high_alpha &&
        (fieldOk f.low_alpha cur.low_alpha x.low_alpha &&
        (fieldOk f.high_gamma cur.high_gamma x.high_gamma &&
         fieldOk f.low_gamma cur.low_gamma x.low_gamma)))))))) := by
    intro l
    show (if (stepFilter f.meditation cur.meditation (·.meditation) l).isEmpty
        then stepFilter f.meditation cur.meditation (·.meditation) l else _) = _
    rw [guard_chain _ _ _ e3, stepFilter_eq, filter_filter']
  have e1 : ∀ l,
      (let r := stepFilter f.attention cur.attention (·.attention) l
       if r.isEmpty then r else
       let r2 := stepFilter f.meditation cur.meditation (·.meditation) r
       if r2.isEmpty then r2 else
       let r3 := stepFilter f.delta cur.delta (·.delta) r2
       if r3.isEmpty then r3 else
       let r4 := stepFilter f.theta cur.theta (·.theta) r3
       if r4.isEmpty then r4 else
       let r5 := stepFilter f.high_beta cur.high_beta (·.high_beta) r4
       if r5.isEmpty then r5 else
       let r6 := stepFilter f.low_beta cur.low_beta (·.low_beta) r5
       if r6.isEmpty then r6 else
       let r7 := stepFilter f.high_alpha cur.high_alpha (·.high_alpha) r6
       if r7.isEmpty then r7 else
       let r8 := stepFilter f.low_alpha cur.low_alpha (·.low_alpha) r7
       if r8.isEmpty then r8 else
       let r9 := stepFilter f.high_gamma cur.high_gamma (·.high_gamma) r8
       if r9.isEmpty then r9 else
         stepFilter f.low_gamma cur.low_gamma (·.low_gamma) r9) =
      l.filter (matchesRec cur f) := by
    intro l
    show (if (stepFilter f.attention cur.attention (·.attention) l).isEmpty
        then stepFilter f.attention cur.attention (·.attention) l else _) = _
    rw [guard_chain _ _ _ e2, stepFilter_eq, filter_filter']
    rfl
  unfold searchEvents
  cases rs with
  | nil => simp
  | cons a t => simpa using e1 (a :: t)

lemma cascadeGo_eq_specRounds (cur : EegHistoryModel) :
    ∀ (fs : List EegFaultModel) (cr : List EegHistoryModel),
      cascadeGo cur cr fs = specRoundsAux cur cr fs := by
  intro fs
  induction fs with
  | nil => intro cr; rfl
  | cons f fs ih =>
    intro cr
    show (searchEvents cr cur f) :: cascadeGo cur (searchEvents cr cur f) fs = _
    rw [searchEvents_eq_filter, ih]
    rfl

lemma scanResults_eq_specFirstMajority :
    ∀ rl : List (List EegHistoryModel), scanResults rl = specFirstMajority rl := by
  intro rl
  induction rl with
  | nil => rfl
  | cons r rest ih =>
    unfold scanResults specFirstMajority
    by_cases h : r = []
    · subst h; simpa using ih
    · have hne : r.isEmpty = false := by
        cases r with
        | nil => exact absurd rfl h
        | cons a t => rfl
      rw [hne]
      by_cases hm : (maxEvent r).2 > 0
      · simp [hm, h]
      · simp [hm, h, ih]

lemma getLastD_concat' (rl : List (List EegHistoryModel))
    (x : List EegHistoryModel) : (rl ++ [x]).getLastD [] = x := by
  simp [List.getLastD_concat]

lemma getLast?_eq_some_getLastD (rl : List (List EegHistoryModel))
    (hne : rl ≠ []) : rl.getLast? = some (rl.getLastD []) := by
  rw [List.getLastD_eq_getLast?]
  cases h : rl.getLast? with
  | some a => rfl
  | none => exact absurd (List.getLast?_eq_none_iff.mp h) hne

lemma loopAux_spec (cur : EegHistoryModel) (faults : List EegFaultModel) :
    ∀ (fuel i : Nat) (cr : List EegHistoryModel)
      (rl : List (List EegHistoryModel)),
      i + fuel = faults.length → rl.length = i →
      loopAux cur faults fuel i cr rl =
        Except.ok (rl ++ cascadeGo cur
          (if i = 0 then cr else rl.getLastD []) (faults.drop i)) := by
  intro fuel
  induction fuel with
  | zero =>
    intro i cr rl hif hlen
    have : faults.drop i = [] := by
      rw [List.drop_eq_nil_iff]; omega
    simp [loopAux, this, cascadeGo]
  | succ fuel ih =>
    intro i cr rl hif hlen
    have hi : i < faults.length := by omega
    have hfi : faults[i]? = some faults[i] := List.getElem?_eq_getElem hi
    have hdrop : faults.drop i = faults[i] :: faults.drop (i + 1) :=
      List.drop_eq_getElem_cons hi
    by_cases h0 : i = 0
    · subst h0
      have hrl : rl = [] := List.length_eq_zero.mp hlen
      subst hrl
      show loopAux cur faults (fuel + 1) 0 cr [] = _
      unfold loopAux
      simp only [if_pos rfl, hfi]
      rw [ih 1 cr ([] ++ [searchEvents cr cur faults[0]]) (by omega) (by simp)]
      simp only [if_neg (by omega : (1 : Nat) ≠ 0), List.nil_append,
        getLastD_concat']
      rw [hdrop]
      show Except.ok ([searchEvents cr cur faults[0]] ++
        cascadeGo cur (searchEvents cr cur faults[0]) (faults.drop 1)) = _
      rfl
    · have hne : rl ≠ [] := by
        intro hc; subst hc; simp at hlen; omega
      have hlast : rl[i - 1]? = some (rl.getLastD []) := by
        have h1 : i - 1 = rl.length - 1 := by omega
        rw [h1, ← List.getLast?_eq_getElem?, getLast?_eq_some_getLastD rl hne]
      show loopAux cur faults (fuel + 1) i cr rl = _
      unfold loopAux
      simp only [if_neg h0, hlast, hfi]
      rw [ih (i + 1) (rl.getLastD [])
        (rl ++ [searchEvents (rl.getLastD []) cur faults[i]]) (by omega)
        (by simp [hlen])]
      simp only [if_neg (by omega : i + 1 ≠ 0), getLastD_concat']
      rw [hdrop]
      show Except.ok ((rl ++ [searchEvents (rl.getLastD []) cur faults[i]]) ++
        cascadeGo cur (searchEvents (rl.getLastD []) cur faults[i])
          (faults.drop (i + 1))) = _
      rw [List.append_assoc]
      rfl

lemma le_foldl_max : ∀ (t : List (String × Nat)) (a : Nat),
    a ≤ t.foldl (fun m p => max m p.2) a := by
  intro t
  induction t with
  | nil => intro a; exact le_refl a
  | cons p t ih =>
    intro a
    exact le_trans (Nat.le_max_left a p.2) (ih (max a p.2))

lemma foldl_pick_snd : ∀ (t : List (String × Nat)) (h : String × Nat),
    (t.foldl (fun acc p => if p.2 > acc.2 then p else acc) h).2 = maxSnd h t := by
  intro t
  induction t with
  | nil => intro h; rfl
  | cons p t ih =>
    intro h
    rw [List.foldl_cons, ih]
    unfold maxSnd
    rw [List.foldl_cons]
    congr 1
    split <;> omega

lemma find?_argmax : ∀ (t : List (String × Nat)) (h : String × Nat),
    List.find? (fun p => p.2 == maxSnd h t) (h :: t) =
      some (t.foldl (fun acc p => if p.2 > acc.2 then p else acc) h) := by
  intro t
  induction t with
  | nil =>
    intro h
    rw [List.find?_cons_of_pos _ (by simp [maxSnd])]
    rfl
  | cons p t ih =>
    intro h
    by_cases hc : p.2 > h.2
    · have hM : maxSnd h (p :: t) = maxSnd p t := by
        unfold maxSnd
        rw [List.foldl_cons]
        congr 1
        omega
      have hp : p.2 ≤ maxSnd p t := le_foldl_max t p.2
      rw [hM, List.find?_cons_of_neg _ (by simp; omega),
        List.foldl_cons, if_pos hc]
      exact ih p
    · have hM : maxSnd h (p :: t) = maxSnd h t := by
        unfold maxSnd
        rw [List.foldl_cons]
        congr 1
        omega
      have hh2 : h.2 ≤ maxSnd h t := le_foldl_max t h.2
      rw [hM, List.foldl_cons, if_neg hc]
      by_cases hh : h.2 = maxSnd h t
      · have := ih h
        rw [List.find?_cons_of_pos _ (by simp [hh])] at this ⊢
        exact this
      · have := ih h
        rw [List.find?_cons_of_neg _ (by simp [hh])] at this
        rw [List.find?_cons_of_neg _ (by simp [hh]),
          List.find?_cons_of_neg _ (by simp; omega)]
        exact this

/-- C3: the matcher's majority selection is the stable max-by-count over
the fixed enumeration order (ml, mr, mu, md, stop): `max(counts.items(),
key=...)` returns exactly the *first* entry of that enumeration whose
count equals the maximal count, so equal maximal counts are always broken
in favour of the earlier label; as a pure function of the candidate set it
is deterministic across repeated runs. -/
theorem claim3_majority_tie_break_fixed_order (results : List EegHistoryModel) :
    (eventCounts results).find? (fun p => p.2 == maxCountOf results) =
      some (maxEvent results) := by
  have hM : maxCountOf results =
      maxSnd ("ml", countEvent results "ml")
        [("mr", countEvent results "mr"), ("mu", countEvent results "mu"),
         ("md", countEvent results "md"), ("stop", countEvent results "stop")] := by
    simp only [maxCountOf, maxSnd, List.foldl]
    omega
  show List.find? _ (("ml", countEvent results "ml") ::
    [("mr", countEvent results "mr"), ("mu", countEvent results "mu"),
     ("md", countEvent results "md"), ("stop", countEvent results "stop")]) = _
  simp only [hM]
  exact find?_argmax _ _

lemma loopAux_ok (cur : EegHistoryModel) (faults : List EegFaultModel) :
    ∀ (fuel i : Nat) (cr : List EegHistoryModel)
      (rl : List (List EegHistoryModel)),
      i + fuel ≤ faults.length + 1 → rl.length = min i faults.length →
      ∃ out, loopAux cur faults fuel i cr rl = Except.ok out := by
  intro fuel
  induction fuel with
  | zero => intro i cr rl _ _; exact ⟨rl, rfl⟩
  | succ fuel ih =>
    intro i cr rl hbound hlen
    by_cases h0 : i = 0
    · subst h0
      show ∃ out, loopAux cur faults (fuel + 1) 0 cr rl = Except.ok out
      unfold loopAux
      rw [if_pos rfl]
      rcases Nat.lt_or_ge 0 faults.length with hlt | hge
      · rw [List.getElem?_eq_getElem hlt]
        exact ih 1 cr (rl ++ [searchEvents cr cur faults[0]]) (by omega)
          (by simp only [List.length_append, List.length_cons,
            List.length_nil]; omega)
      · rw [List.getElem?_eq_none (by omega)]
        exact ih 1 cr rl (by omega) (by omega)
    · have h1 : i - 1 < rl.length := by omega
      show ∃ out, loopAux cur faults (fuel + 1) i cr rl = Except.ok out
      unfold loopAux
      rw [if_neg h0, List.getElem?_eq_getElem h1]
      rcases Nat.lt_or_ge i faults.length with hlt | hge
      · rw [List.getElem?_eq_getElem hlt]
        exact ih (i + 1) rl[i - 1]
          (rl ++ [searchEvents rl[i - 1] cur faults[i]]) (by omega)
          (by simp only [List.length_append, List.length_cons,
            List.length_nil]; omega)
      · rw [List.getElem?_eq_none (by omega)]
        exact ih (i + 1) rl[i - 1] rl (by omega) (by omega)

/-- C8 (amended): the matcher propagates no exception as long as
`multi_count` does not exceed the profile count plus one: under that bound
`get_event_name_by` always returns a label (the parser functions are total
over arbitrary byte sequences by construction, and absence of a sample is
their only failure signal). The bound is tight — see the counterexample. -/
theorem claim8_matcher_total_below_bound (history : List EegHistoryModel)
    (current : EegHistoryModel) (config : ConfigParams)
    (h : config.multi_count ≤ (config.eeg_faults.length : Int) + 1) :
    ∃ s, getEventNameBy history current config = Except.ok s := by
  by_cases hh : history.isEmpty
  · exact ⟨"", by simp [getEventNameBy, hh]⟩
  · unfold getEventNameBy
    rw [if_neg (by simp [hh])]
    obtain ⟨out, hout⟩ := loopAux_ok current config.eeg_faults.reverse
      config.multi_count.toNat 0 history []
      (by simp only [List.length_reverse]; omega) (by simp)
    refine ⟨scanResults out.reverse, ?_⟩
    show (match loopAux current config.eeg_faults.reverse
        config.multi_count.toNat 0 history [] with
      | Except.error e => Except.error e
      | Except.ok rl => Except.ok (scanResults rl.reverse)) =
        Except.ok (scanResults out.reverse)
    rw [hout]

/-- Witness for C8 at `multi_count = 3` with two profiles and a singleton
history. -/
theorem claim8_witness :
    ((⟨3, [faultA, faultA]⟩ : ConfigParams).multi_count ≤
      ((⟨3, [faultA, faultA]⟩ : ConfigParams).eeg_faults.length : Int) + 1) ∧
    ∃ s, getEventNameBy [recA] recB ⟨3, [faultA, faultA]⟩ = Except.ok s :=
  ⟨by decide, claim8_matcher_total_below_bound [recA] recB _ (by decide)⟩

/-- C8 counterexample: with `multi_count = 2`, an empty profile list and a
non-empty history, `get_event_name_by` evaluates `results_list[1 - 1]` on
an empty `results_list` and raises `IndexError`, so the matcher does
propagate an exception for some configurations. -/
theorem claim8_counterexample_index_error :
    getEventNameBy [recA] recA ⟨2, []⟩ = Except.error "IndexError" := by
  rfl

/-- C1: the matcher's classification equals the specified cascade: with
`multi_count` equal to the number N of profiles, round 0 filters the whole
history log against profile[N-1], round i filters round i-1's output
against profile[N-1-i], the rounds are consulted in reversed
(narrowest-first) order, the first non-empty round with a positive
majority count supplies the label, and an empty history (or no qualifying
round) yields the empty label. -/
theorem claim1_cascade_refines_spec (history : List EegHistoryModel)
    (current : EegHistoryModel) (profiles : List EegFaultModel) :
    getEventNameBy history current ⟨(profiles.length : Int), profiles⟩ =
      Except.ok (specClassify history current profiles) := by
  by_cases hh : history.isEmpty
  · have : history = [] := List.isEmpty_iff.mp hh
    subst this
    rfl
  · have hne : history ≠ [] := by
      intro hc; subst hc; exact hh rfl
    unfold getEventNameBy specClassify
    rw [if_neg (by simp [hh]), if_neg hne]
    show (match loopAux current profiles.reverse
        ((profiles.length : Int)).toNat 0 history [] with
      | Except.error e => Except.error e
      | Except.ok rl => Except.ok (scanResults rl.reverse)) = _
    rw [show ((profiles.length : Int)).toNat = profiles.reverse.length from by simp]
    rw [loopAux_spec current profiles.reverse profiles.reverse.length 0 history []
      (by omega) rfl]
    show Except.ok (scanResults
      (([] ++ cascadeGo current (if 0 = 0 then history else [].getLastD [])
        (profiles.reverse.drop 0)).reverse)) = _
    rw [if_pos rfl, List.nil_append, List.drop_zero, cascadeGo_eq_specRounds,
      scanResults_eq_specFirstMajority]

/-! ## Theorems: zero-tolerance field semantics (C2) -/

lemma searchEvents_singleton_iff (r cur : EegHistoryModel) (f : EegFaultModel) :
    searchEvents [r] cur f = [r] ↔ matchesRec cur f r = true := by
  rw [searchEvents_eq_filter]
  cases hm : matchesRec cur f r <;> simp [List.filter_cons, hm]

lemma fieldOk_iff (t c v : Int) :
    fieldOk t c v = true ↔ (t = 0 ∨ (c - t ≤ v ∧ v ≤ c + t)) := by
  simp [fieldOk]

lemma matchesRec_iff_fields (cur : EegHistoryModel) (f : EegFaultModel)
    (r : EegHistoryModel) :
    matchesRec cur f r = true ↔
      ∀ G : EegField, G ≠ EegField.signal → f.fld G ≠ 0 →
        (cur.fld G - f.fld G ≤ r.fld G ∧ r.fld G ≤ cur.fld G + f.fld G) := by
  unfold matchesRec
  simp only [Bool.and_eq_true, fieldOk_iff]
  constructor
  · rintro ⟨h1, h2, h3, h4, h5, h6, h7, h8, h9, h10⟩ G hs hnz
    cases G with
    | attention => exact h1.resolve_left hnz
    | meditation => exact h2.resolve_left hnz
    | signal => exact absurd rfl hs
    | delta => exact h3.resolve_left hnz
    | theta => exact h4.resolve_left hnz
    | lowAlpha => exact h8.resolve_left hnz
    | highAlpha => exact h7.resolve_left hnz
    | lowBeta => exact h6.resolve_left hnz
    | highBeta => exact h5.resolve_left hnz
    | lowGamma => exact h10.resolve_left hnz
    | highGamma => exact h9.resolve_left hnz
  · intro h
    refine ⟨?_, ?_, ?_, ?_, ?_, ?_, ?_, ?_, ?_, ?_⟩ <;>
      [skip; skip; skip; skip; skip; skip; skip; skip; skip; skip]
    · by_cases ht : f.attention = 0
      · exact Or.inl ht
      · exact Or.inr (h EegField.attention (by decide) ht)
    · by_cases ht : f.meditation = 0
      · exact Or.inl ht
      · exact Or.inr (h EegField.meditation (by decide) ht)
    · by_cases ht : f.delta = 0
      · exact Or.inl ht
      · exact Or.inr (h EegField.delta (by decide) ht)
    · by_cases ht : f.theta = 0
      · exact Or.inl ht
      · exact Or.inr (h EegField.theta (by decide) ht)
    · by_cases ht : f.high_beta = 0
      · exact Or.inl ht
      · exact Or.inr (h EegField.highBeta (by decide) ht)
    · by_cases ht : f.low_beta = 0
      · exact Or.inl ht
      · exact Or.inr (h EegField.lowBeta (by decide) ht)
    · by_cases ht : f.high_alpha = 0
      · exact Or.inl ht
      · exact Or.inr (h EegField.highAlpha (by decide) ht)
    · by_cases ht : f.low_alpha = 0
      · exact Or.inl ht
      · exact Or.inr (h EegField.lowAlpha (by decide) ht)
    · by_cases ht : f.high_gamma = 0
      · exact Or.inl ht
      · exact Or.inr (h EegField.highGamma (by decide) ht)
    · by_cases ht : f.low_gamma = 0
      · exact Or.inl ht
      · exact Or.inr (h EegField.lowGamma (by decide) ht)

lemma setFld_fld (x : EegHistoryModel) (F G : EegField) (v : Int) :
    (x.setFld F v).fld G = if G = F then v else x.fld G := by
  cases F <;> cases G <;>
    simp [EegHistoryModel.setFld, EegHistoryModel.fld]

/-- C2 (amended): in `_search_events`, (a) a zero tolerance on a field
means the field is excluded from filtering — perturbing that field on the
current sample or the record never changes the record's inclusion; (b) a
record is included exactly when every field *other than signal* with a
nonzero tolerance satisfies `current - tol ≤ value ≤ current + tol`; and
(c) the signal field is never consulted at all, so perturbing it never
changes inclusion even under a nonzero signal tolerance. -/
theorem claim2_zero_tolerance_semantics (cur r : EegHistoryModel)
    (f : EegFaultModel) (F : EegField) (v w : Int) :
    (f.fld F = 0 →
      (searchEvents [r.setFld F w] (cur.setFld F v) f = [r.setFld F w] ↔
        searchEvents [r] cur f = [r])) ∧
    (searchEvents [r] cur f = [r] ↔
      ∀ G : EegField, G ≠ EegField.signal → f.fld G ≠ 0 →
        (cur.fld G - f.fld G ≤ r.fld G ∧ r.fld G ≤ cur.fld G + f.fld G)) ∧
    (searchEvents [r.setFld EegField.signal w]
        (cur.setFld EegField.signal v) f = [r.setFld EegField.signal w] ↔
      searchEvents [r] cur f = [r]) := by
  refine ⟨?_, ?_, ?_⟩
  · intro h0
    rw [searchEvents_singleton_iff, searchEvents_singleton_iff,
      matchesRec_iff_fields, matchesRec_iff_fields]
    constructor
    · intro h G hs hnz
      have hGF : G ≠ F := fun hc => hnz (hc ▸ h0)
      have h2 := h G hs hnz
      rwa [setFld_fld, setFld_fld, if_neg hGF, if_neg hGF] at h2
    · intro h G hs hnz
      have hGF : G ≠ F := fun hc => hnz (hc ▸ h0)
      rw [setFld_fld, setFld_fld, if_neg hGF, if_neg hGF]
      exact h G hs hnz
  · rw [searchEvents_singleton_iff, matchesRec_iff_fields]
  · rw [searchEvents_singleton_iff, searchEvents_singleton_iff,
      matchesRec_iff_fields, matchesRec_iff_fields]
    constructor
    · intro h G hs hnz
      have h2 := h G hs hnz
      rwa [setFld_fld, setFld_fld, if_neg hs, if_neg hs] at h2
    · intro h G hs hnz
      rw [setFld_fld, setFld_fld, if_neg hs, if_neg hs]
      exact h G hs hnz

/-- Witness for C2: perturbing the zero-tolerance signal field of `faultA`
leaves inclusion unchanged. -/
theorem claim2_witness :
    searchEvents [recA.setFld EegField.signal 99]
        (recB.setFld EegField.signal 5) faultA =
        [recA.setFld EegField.signal 99] ↔
      searchEvents [recA] recB faultA = [recA] :=
  (claim2_zero_tolerance_semantics recB recA faultA EegField.signal 5 99).1
    (by decide)

/-- C2 counterexample: under a *nonzero* signal tolerance of 1, a record
whose signal differs from the current sample's by 2 is still included, so
"for nonzero tolerance t, R matches on F iff |current.F - R.F| <= t" fails
for the signal field: `_search_events` never filters on signal. -/
theorem claim2_counterexample_signal_ignored :
    searchEvents [recSig2] recSig0 faultSig = [recSig2] ∧
    faultSig.fld EegField.signal ≠ 0 ∧
    ¬(recSig0.fld EegField.signal - faultSig.fld EegField.signal ≤
        recSig2.fld EegField.signal ∧
      recSig2.fld EegField.signal ≤
        recSig0.fld EegField.signal + faultSig.fld EegField.signal) := by
  decide

/-! ## Theorems: protocol decoder (C4, C5, C10) -/

lemma parseData_eeg (st : ParserState) (data : List Nat) :
    (parseData st data).1.1 = parseEegPacket (st.buffer ++ data) := rfl

lemma parseData_gyro (st : ParserState) (data : List Nat) :
    (parseData st data).1.2 = parseGyroPacket (st.buffer ++ data) := rfl

lemma parseData_state (st : ParserState) (data : List Nat)
    (h : (st.buffer ++ data).length ≤ 2000) :
    (parseData st data).2 = ⟨st.buffer ++ data⟩ := by
  show (⟨if (st.buffer ++ data).length > 2000
      then (st.buffer ++ data).drop ((st.buffer ++ data).length - 2000)
      else st.buffer ++ data⟩ : ParserState) = ⟨st.buffer ++ data⟩
  rw [if_neg (by omega)]

lemma parseEegLoop_some (buf : List Nat) :
    ∀ (fuel idx : Nat) (m : BrainLinkModel),
      parseEegLoop buf fuel idx = some m →
      ∃ i, idx ≤ i ∧ eegFullMatchAt buf i ∧ m = decodeEegAt buf i ∧
        ∀ j, idx ≤ j → j < i →
          ¬(eegHeaderAt buf j = true ∧ j + 54 ≤ buf.length) := by
  intro fuel
  induction fuel with
  | zero => intro idx m h; exact absurd h (by simp [parseEegLoop])
  | succ fuel ih =>
    intro idx m h
    unfold parseEegLoop at h
    by_cases h1 : idx < buf.length - 60
    · rw [if_pos h1] at h
      by_cases h2 : eegHeaderAt buf idx
      · rw [if_pos h2] at h
        by_cases h3 : idx + 54 ≤ buf.length
        · rw [if_pos h3] at h
          refine ⟨idx, le_refl idx, ⟨h1, h2, h3⟩,
            (Option.some_inj.mp h).symm, ?_⟩
          intro j hj1 hj2
          omega
        · rw [if_neg h3] at h
          obtain ⟨i, hi1, hi2, hi3, hi4⟩ := ih (idx + 1) m h
          refine ⟨i, by omega, hi2, hi3, ?_⟩
          intro j hj1 hj2
          by_cases hji : j = idx
          · subst hji
            rintro ⟨_, hc⟩
            exact h3 hc
          · exact hi4 j (by omega) hj2
      · rw [if_neg h2] at h
        obtain ⟨i, hi1, hi2, hi3, hi4⟩ := ih (idx + 1) m h
        refine ⟨i, by omega, hi2, hi3, ?_⟩
        intro j hj1 hj2
        by_cases hji : j = idx
        · subst hji
          rintro ⟨hc, _⟩
          exact h2 hc
        · exact hi4 j (by omega) hj2
    · rw [if_neg h1] at h
      exact absurd h (by simp)

lemma parseGyroLoop_some (buf : List Nat) :
    ∀ (fuel idx : Nat) (g : Int × Int × Int),
      parseGyroLoop buf fuel idx = some g →
      ∃ i, idx ≤ i ∧ gyroFullMatchAt buf i ∧ g = decodeGyroAt buf i ∧
        ∀ j, idx ≤ j → j < i → ¬ gyroHeaderAt buf j = true := by
  intro fuel
  induction fuel with
  | zero => intro idx g h; exact absurd h (by simp [parseGyroLoop])
  | succ fuel ih =>
    intro idx g h
    unfold parseGyroLoop at h
    by_cases h1 : idx < buf.length - 15
    · rw [if_pos h1] at h
      by_cases h2 : gyroHeaderAt buf idx
      · rw [if_pos h2] at h
        refine ⟨idx, le_refl idx, ⟨h1, h2⟩, (Option.some_inj.mp h).symm, ?_⟩
        intro j hj1 hj2
        omega
      · rw [if_neg h2] at h
        obtain ⟨i, hi1, hi2, hi3, hi4⟩ := ih (idx + 1) g h
        refine ⟨i, by omega, hi2, hi3, ?_⟩
        intro j hj1 hj2
        by_cases hji : j = idx
        · subst hji
          exact h2
        · exact hi4 j (by omega) hj2
    · rw [if_neg h1] at h
      exact absurd h (by simp)

lemma parseEegLoop_short (buf : List Nat) (h : buf.length ≤ 60) :
    ∀ (fuel idx : Nat), parseEegLoop buf fuel idx = none := by
  intro fuel idx
  cases fuel with
  | zero => rfl
  | succ fuel =>
    unfold parseEegLoop
    rw [if_neg (by omega)]

lemma parseGyroLoop_short (buf : List Nat) (h : buf.length ≤ 15) :
    ∀ (fuel idx : Nat), parseGyroLoop buf fuel idx = none := by
  intro fuel idx
  cases fuel with
  | zero => rfl
  | succ fuel =>
    unfold parseGyroLoop
    rw [if_neg (by omega)]

/-- C10: the scan considers an EEG header at `idx` only under the loop
condition `idx < len(buffer) - 60` (although a complete EEG frame is 54
bytes), and a gyro header only under `idx < len(buffer) - 15` (for a
10-byte frame); consequently a feed whose buffer is a single complete EEG
frame (54 bytes) yields no EEG sample, and a single complete gyro frame
plus six bytes of body padding short of the window (10 bytes alone here)
yields no gyro sample, until more bytes arrive. -/
theorem claim10_scan_window_bounds :
    (∀ (buf : List Nat) (m : BrainLinkModel), parseEegPacket buf = some m →
      ∃ idx, idx < buf.length - 60 ∧ eegHeaderAt buf idx = true) ∧
    (∀ (buf : List Nat) (g : Int × Int × Int), parseGyroPacket buf = some g →
      ∃ idx, idx < buf.length - 15 ∧ gyroHeaderAt buf idx = true) ∧
    (∀ payload : List Nat, payload.length = 50 →
      (parseData ⟨[]⟩ (eegFrame payload)).1.1 = none) ∧
    (∀ body : List Nat, body.length = 6 →
      (parseData ⟨[]⟩ (0xAA :: 0xAA :: 0x07 :: 0x03 :: body)).1.2 = none) := by
  refine ⟨?_, ?_, ?_, ?_⟩
  · intro buf m h
    obtain ⟨i, _, ⟨hw, hh, _⟩, _, _⟩ := parseEegLoop_some buf buf.length 0 m h
    exact ⟨i, hw, hh⟩
  · intro buf g h
    obtain ⟨i, _, ⟨hw, hh⟩, _, _⟩ := parseGyroLoop_some buf buf.length 0 g h
    exact ⟨i, hw, hh⟩
  · intro payload hl
    rw [parseData_eeg, List.nil_append]
    exact parseEegLoop_short (eegFrame payload) (by simp [eegFrame, hl]) _ 0
  · intro body hl
    rw [parseData_gyro, List.nil_append]
    exact parseGyroLoop_short _ (by simp [hl]) _ 0

/-- Witness for C10 on concrete buffers: a 61-byte buffer that does yield
an EEG sample satisfies the window bound, likewise a 16-byte gyro buffer;
and the bare 54-byte EEG frame / 10-byte gyro frame yield nothing. -/
theorem claim10_witness :
    (∃ idx, idx < bufY.length - 60 ∧ eegHeaderAt bufY idx = true) ∧
    (∃ idx, idx < gyroBufY.length - 15 ∧ gyroHeaderAt gyroBufY idx = true) ∧
    (parseData ⟨[]⟩ (eegFrame payloadZ)).1.1 = none ∧
    (parseData ⟨[]⟩ (0xAA :: 0xAA :: 0x07 :: 0x03 :: List.replicate 6 0)).1.2 =
      none :=
  ⟨claim10_scan_window_bounds.1 bufY (decodeEegAt bufY 0) (by decide),
   claim10_scan_window_bounds.2.1 gyroBufY (decodeGyroAt gyroBufY 0) (by decide),
   claim10_scan_window_bounds.2.2.1 payloadZ (by decide),
   claim10_scan_window_bounds.2.2.2 (List.replicate 6 0) (by decide)⟩

/-- C5 (amended): `parse_data` returns at most one EEG and one gyro sample
per call (its result type holds one optional sample of each kind), and
when several frames are fully matched in the buffer the returned sample is
the decode at the *earliest* fully-matched position — every smaller index
fails the header or payload test — not the most recent one. -/
theorem claim5_at_most_one_earliest_match :
    (∀ (buf : List Nat) (m : BrainLinkModel), parseEegPacket buf = some m →
      ∃ i, eegFullMatchAt buf i ∧ m = decodeEegAt buf i ∧
        ∀ j, j < i → ¬(eegHeaderAt buf j = true ∧ j + 54 ≤ buf.length)) ∧
    (∀ (buf : List Nat) (g : Int × Int × Int), parseGyroPacket buf = some g →
      ∃ i, gyroFullMatchAt buf i ∧ g = decodeGyroAt buf i ∧
        ∀ j, j < i → ¬ gyroHeaderAt buf j = true) := by
  constructor
  · intro buf m h
    obtain ⟨i, _, hm, hd, hskip⟩ := parseEegLoop_some buf buf.length 0 m h
    exact ⟨i, hm, hd, fun j hj => hskip j (Nat.zero_le j) hj⟩
  · intro buf g h
    obtain ⟨i, _, hm, hd, hskip⟩ := parseGyroLoop_some buf buf.length 0 g h
    exact ⟨i, hm, hd, fun j hj => hskip j (Nat.zero_le j) hj⟩

/-- Witness for C5 on the two-frame buffer: the returned sample decodes at
a position before which no frame matches. -/
theorem claim5_witness :
    ∃ i, eegFullMatchAt (eegFrame payloadW ++ eegFrame payloadX ++ padW) i ∧
      encodedEegSample payloadW =
        decodeEegAt (eegFrame payloadW ++ eegFrame payloadX ++ padW) i ∧
      ∀ j, j < i →
        ¬(eegHeaderAt (eegFrame payloadW ++ eegFrame payloadX ++ padW) j = true ∧
          j + 54 ≤ (eegFrame payloadW ++ eegFrame payloadX ++ padW).length) :=
  claim5_at_most_one_earliest_match.1 _ (encodedEegSample payloadW) (by decide)

/-- C5 counterexample: a buffer holding two fully-matched EEG frames
(attention bytes 70 then 71). The frame at index 54 is fully matched and
decodes differently, yet the parser returns the decode of the *first*
frame, so "the most recently fully-matched one" is false. -/
theorem claim5_counterexample_first_not_last :
    (parseData ⟨[]⟩ (eegFrame payloadW ++ eegFrame payloadX ++ padW)).1.1 =
      some (encodedEegSample payloadW) ∧
    eegFullMatchAt (eegFrame payloadW ++ eegFrame payloadX ++ padW) 54 ∧
    decodeEegAt (eegFrame payloadW ++ eegFrame payloadX ++ padW) 54 ≠
      encodedEegSample payloadW := by
  decide

lemma getD_mem_of_lt (l : List Nat) (k : Nat) (h : k < l.length) :
    l.getD k 0 ∈ l := by
  simp [List.getD_eq_getElem?_getD, List.getElem?_eq_getElem h]

lemma be3_le (a b c : Nat) (ha : a ≤ 255) (hb : b ≤ 255) (hc : c ≤ 255) :
    be3 a b c ≤ 16777215 := by
  unfold be3
  omega

/-- C4 (amended): a valid EEG frame decodes to exactly its encoded field
values — attention at payload byte 2, meditation at byte 4, eight 3-byte
big-endian band powers from byte 6 — *provided* the buffer extends at
least 7 bytes past the frame (the scan requires `idx < len - 60` for a
54-byte frame); with that slack, a single feed yields the encoded sample,
and so does the second of two feeds splitting the same bytes at any point
(the total stays under the 2000-byte retention window). Without the slack
no sample is produced — see the counterexample. -/
theorem claim4_roundtrip_with_slack (payload pad : List Nat) (k : Nat)
    (hlen : payload.length = 50) (hbytes : ∀ b ∈ payload, b ≤ 255)
    (hatt : payload.getD 2 0 ≤ 100) (hmed : payload.getD 4 0 ≤ 100)
    (hpad : 7 ≤ pad.length) (hpad2 : pad.length ≤ 1946) :
    (parseData ⟨[]⟩ (eegFrame payload ++ pad)).1.1 =
      some (encodedEegSample payload) ∧
    (parseData ((parseData ⟨[]⟩ ((eegFrame payload ++ pad).take k)).2)
        ((eegFrame payload ++ pad).drop k)).1.1 =
      some (encodedEegSample payload) := by
  have hL : (eegFrame payload ++ pad).length = 54 + pad.length := by
    simp [eegFrame, hlen]
    omega
  have hb : ∀ j, j < 50 → payload.getD j 0 ≤ 255 := by
    intro j hj
    exact hbytes _ (getD_mem_of_lt payload j (by omega))
  have hdata : ((eegFrame payload ++ pad).drop (0 + 4)).take 50 = payload := by
    have h1 : (eegFrame payload ++ pad).drop (0 + 4) = payload ++ pad := rfl
    rw [h1, ← hlen, List.take_left]
  have hdr : eegHeaderAt (eegFrame payload ++ pad) 0 = true := by
    have h0 : (eegFrame payload ++ pad).getD 0 0 = 0xAA := rfl
    have h1 : (eegFrame payload ++ pad).getD (0 + 1) 0 = 0xAA := rfl
    have h2 : (eegFrame payload ++ pad).getD (0 + 2) 0 = 0x20 := rfl
    have h3 : (eegFrame payload ++ pad).getD (0 + 3) 0 = 0x02 := rfl
    simp only [eegHeaderAt, h0, h1, h2, h3, beq_self_eq_true, Bool.and_true,
      Bool.true_and, Bool.and_eq_true, decide_eq_true_iff]
    rw [hL]
    omega
  have hdec : decodeEegAt (eegFrame payload ++ pad) 0 =
      encodedEegSample payload := by
    unfold decodeEegAt
    simp only [hdata, hlen]
    rw [if_pos (by norm_num : (4 : Nat) < 50), if_pos (by norm_num : (8 : Nat) < 50),
      if_pos (by norm_num : (11 : Nat) < 50), if_pos (by norm_num : (14 : Nat) < 50),
      if_pos (by norm_num : (17 : Nat) < 50), if_pos (by norm_num : (20 : Nat) < 50),
      if_pos (by norm_num : (23 : Nat) < 50), if_pos (by norm_num : (26 : Nat) < 50),
      if_pos (by norm_num : (29 : Nat) < 50)]
    unfold mkBrainLinkModel encodedEegSample
    simp only [BrainLinkModel.mk.injEq]
    refine ⟨Nat.min_eq_left hatt, Nat.min_eq_left hmed, rfl, ?_, ?_, ?_, ?_,
      ?_, ?_, ?_, ?_⟩
    · exact Nat.min_eq_left (be3_le _ _ _ (hb 6 (by norm_num))
        (hb 7 (by norm_num)) (hb 8 (by norm_num)))
    · exact Nat.min_eq_left (be3_le _ _ _ (hb 9 (by norm_num))
        (hb 10 (by norm_num)) (hb 11 (by norm_num)))
    · exact Nat.min_eq_left (be3_le _ _ _ (hb 12 (by norm_num))
        (hb 13 (by norm_num)) (hb 14 (by norm_num)))
    · exact Nat.min_eq_left (be3_le _ _ _ (hb 15 (by norm_num))
        (hb 16 (by norm_num)) (hb 17 (by norm_num)))
    · exact Nat.min_eq_left (be3_le _ _ _ (hb 18 (by norm_num))
        (hb 19 (by norm_num)) (hb 20 (by norm_num)))
    · exact Nat.min_eq_left (be3_le _ _ _ (hb 21 (by norm_num))
        (hb 22 (by norm_num)) (hb 23 (by norm_num)))
    · exact Nat.min_eq_left (be3_le _ _ _ (hb 24 (by norm_num))
        (hb 25 (by norm_num)) (hb 26 (by norm_num)))
    · exact Nat.min_eq_left (be3_le _ _ _ (hb 27 (by norm_num))
        (hb 28 (by norm_num)) (hb 29 (by norm_num)))
  have hmain : parseEegPacket (eegFrame payload ++ pad) =
      some (encodedEegSample payload) := by
    unfold parseEegPacket
    rw [hL, show 54 + pad.length = (53 + pad.length) + 1 from by omega]
    unfold parseEegLoop
    rw [if_pos (show 0 < (eegFrame payload ++ pad).length - 60 from by
      rw [hL]; omega)]
    rw [if_pos hdr]
    rw [if_pos (show 0 + 54 ≤ (eegFrame payload ++ pad).length from by
      rw [hL]; omega)]
    rw [hdec]
  constructor
  · rw [parseData_eeg, List.nil_append]
    exact hmain
  · rw [parseData_state ⟨[]⟩ ((eegFrame payload ++ pad).take k)
      (by simp only [List.nil_append, List.length_take]; omega)]
    rw [parseData_eeg]
    show parseEegPacket (([] ++ (eegFrame payload ++ pad).take k) ++
      (eegFrame payload ++ pad).drop k) = some (encodedEegSample payload)
    rw [List.nil_append, List.take_append_drop]
    exact hmain

/-- Witness for C4: the concrete payload `payloadW` with 7 slack bytes,
split at byte 10. -/
theorem claim4_witness :
    (parseData ⟨[]⟩ (eegFrame payloadW ++ padW)).1.1 =
      some (encodedEegSample payloadW) ∧
    (parseData ((parseData ⟨[]⟩ ((eegFrame payloadW ++ padW).take 10)).2)
        ((eegFrame payloadW ++ padW).drop 10)).1.1 =
      some (encodedEegSample payloadW) :=
  claim4_roundtrip_with_slack payloadW padW 10 (by decide) (by decide)
    (by decide) (by decide) (by decide) (by decide)

/-- C4 counterexample: feeding exactly one complete, valid 54-byte EEG
frame to a fresh parser yields *no* sample at all (the scan needs the
buffer to reach 61 bytes), refuting "feeding it to the parser in one call
yields an EegSample". -/
theorem claim4_counterexample_bare_frame :
    (eegFrame payloadW).length = 54 ∧
    (parseData ⟨[]⟩ (eegFrame payloadW)).1.1 = none := by
  decide

/-! ## Theorems: shared-memory ownership (C6) and integer writer (C7) -/

lemma stop_registered (w : ShmWorld) (s : ShmService)
    (hrun : s.is_running = true) (hshm : s.shm.isSome) :
    (ShmService.stop w s).1.registered =
      (if s.we_created_shm then none else w.registered) := by
  obtain ⟨a, ha⟩ := Option.isSome_iff_exists.mp hshm
  unfold ShmService.stop
  rw [ha]
  cases hflag : s.we_created_shm <;> simp [hrun, hflag]

lemma start_running_shm (w : ShmWorld) (s : ShmService)
    (h : s.is_running = false) (c : Bool) :
    (ShmService.start w s c).2.is_running = true ∧
      (ShmService.start w s c).2.shm.isSome := by
  unfold ShmService.start
  rw [if_neg (by simp [h])]
  cases c <;> cases hr : w.registered <;> simp [hr]

/-- C6: `stop()` unlinks the segment name exactly when this instance
created the segment (`_we_created_shm`); in particular, for two instances
started sequentially on the same name, if the second instance merely
attached (its ownership flag is false) then its `stop()` leaves the name
binding — the first instance's segment — untouched. -/
theorem claim6_stop_unlinks_iff_owner :
    (∀ (w : ShmWorld) (s : ShmService), s.is_running = true → s.shm.isSome →
      (ShmService.stop w s).1.registered =
        (if s.we_created_shm then none else w.registered)) ∧
    (∀ (w0 : ShmWorld) (c1 c2 : Bool),
      (ShmService.start (ShmService.start w0 ShmService.init c1).1
          ShmService.init c2).2.we_created_shm = false →
      (ShmService.stop
          (ShmService.start (ShmService.start w0 ShmService.init c1).1
            ShmService.init c2).1
          (ShmService.start (ShmService.start w0 ShmService.init c1).1
            ShmService.init c2).2).1.registered =
        (ShmService.start (ShmService.start w0 ShmService.init c1).1
          ShmService.init c2).1.registered) := by
  constructor
  · exact fun w s hrun hshm => stop_registered w s hrun hshm
  · intro w0 c1 c2 hflag
    obtain ⟨hrun, hshm⟩ := start_running_shm
      (ShmService.start w0 ShmService.init c1).1 ShmService.init rfl c2
    rw [stop_registered _ _ hrun hshm, if_neg (by simp [hflag])]

/-- Witness for C6: a running owner instance unlinks on stop, and in the
concrete sequential scenario (create succeeds, then cleanup fails and the
second instance attaches) the second instance's stop preserves the first
instance's segment. -/
theorem claim6_witness :
    ((ShmService.stop ⟨some 5, 6⟩ ⟨some 5, false, true⟩).1.registered =
      (if (⟨some 5, false, true⟩ : ShmService).we_created_shm then none
       else (⟨some 5, 6⟩ : ShmWorld).registered)) ∧
    ((ShmService.stop
        (ShmService.start (ShmService.start ⟨none, 0⟩ ShmService.init true).1
          ShmService.init false).1
        (ShmService.start (ShmService.start ⟨none, 0⟩ ShmService.init true).1
          ShmService.init false).2).1.registered =
      (ShmService.start (ShmService.start ⟨none, 0⟩ ShmService.init true).1
        ShmService.init false).1.registered) :=
  ⟨claim6_stop_unlinks_iff_owner.1 ⟨some 5, 6⟩ ⟨some 5, false, true⟩
      (by decide) (by decide),
   claim6_stop_unlinks_iff_owner.2 ⟨none, 0⟩ true false (by decide)⟩

/-- C7 (amended): the integer-field writer coerces floats (Python 3
`round`, half to even), numeric strings (`int(float(s))`, truncation), and
`None`/unconvertible values (to 0), and — *provided the coerced integer
fits a signed 32-bit int* — never raises and writes exactly the four
little-endian bytes of the value at byte offset `4 * offset`. Out-of-range
coerced values make `struct.pack('i', ...)` raise — see the
counterexample. -/
theorem claim7_write_int_coercion (buf : List Nat) (off : Nat) (v : PyValue)
    (hoff : off * 4 + 4 ≤ buf.length)
    (hlo : -2147483648 ≤ coerceToInt v) (hhi : coerceToInt v < 2147483648) :
    writeInt buf off v =
      Except.ok (buf.take (off * 4) ++ int32LE (coerceToInt v) ++
        buf.drop (off * 4 + 4)) ∧
    coerceToInt PyValue.vnone = 0 ∧
    coerceToInt (PyValue.vstr none) = 0 ∧
    coerceToInt (PyValue.vobj none) = 0 ∧
    (∀ n : Int, coerceToInt (PyValue.vint n) = n) ∧
    (∀ q : Rat, coerceToInt (PyValue.vfloat q) = roundHalfEven q) ∧
    (∀ q : Rat, coerceToInt (PyValue.vstr (some q)) = intTrunc q) := by
  refine ⟨?_, rfl, rfl, rfl, fun n => rfl, fun q => rfl, fun q => rfl⟩
  have h1 : structPackI (coerceToInt v) =
      Except.ok (int32LE (coerceToInt v)) := by
    unfold structPackI
    rw [if_pos ⟨hlo, hhi⟩]
  unfold writeInt
  rw [h1]
  show (if off * 4 + 4 ≤ buf.length
      then Except.ok (buf.take (off * 4) ++ int32LE (coerceToInt v) ++
        buf.drop (off * 4 + 4))
      else Except.error "ValueError") = _
  rw [if_pos hoff]

set_option maxRecDepth 4000 in
/-- Witness for C7: writing the int 7 at field offset 2 of a 124-byte
segment. -/
theorem claim7_witness :
    writeInt (List.replicate 124 0) 2 (PyValue.vint 7) =
      Except.ok ((List.replicate 124 0).take (2 * 4) ++
        int32LE (coerceToInt (PyValue.vint 7)) ++
        (List.replicate 124 0).drop (2 * 4 + 4)) :=
  (claim7_write_int_coercion (List.replicate 124 0) 2 (PyValue.vint 7)
    (by decide) (by decide) (by decide)).1

/-- C7 counterexample: the writer *does* raise on an integer outside the
signed 32-bit range — `struct.pack('i', 2**31)` raises `struct.error`
(uncaught in `_write_int`), so "the writer never raises" is false. -/
theorem claim7_counterexample_large_int_raises :
    writeInt (List.replicate 124 0) 0 (PyValue.vint 2147483648) =
      Except.error "struct.error" := by
  rfl

/-! ## Theorems: fault cascade derivation (C9) -/

lemma deriveFaults_def (base multi : EegFaultModel) (mc : Int) :
    deriveFaults base multi mc =
      base :: deriveLoop multi (mc.toNat - 1) base := rfl

lemma nextFault_nonneg (prev multi : EegFaultModel) :
    (nextFault prev multi).Nonneg := by
  unfold nextFault EegFaultModel.validate EegFaultModel.Nonneg
  refine ⟨?_, ?_, ?_, ?_, ?_, ?_, ?_, ?_, ?_, ?_, ?_⟩ <;> exact le_max_left 0 _

lemma nextFault_fld (prev multi : EegFaultModel) (hp : prev.Nonneg)
    (hm : multi.Nonneg) :
    (∀ F : EegField, F ≠ EegField.signal →
      (nextFault prev multi).fld F = prev.fld F * multi.fld F) ∧
    (nextFault prev multi).fld EegField.signal = 0 := by
  obtain ⟨p1, p2, p3, p4, p5, p6, p7, p8, p9, p10, p11⟩ := hp
  obtain ⟨m1, m2, m3, m4, m5, m6, m7, m8, m9, m10, m11⟩ := hm
  constructor
  · intro F hF
    cases F with
    | attention => exact max_eq_right (mul_nonneg p1 m1)
    | meditation => exact max_eq_right (mul_nonneg p2 m2)
    | signal => exact absurd rfl hF
    | delta => exact max_eq_right (mul_nonneg p4 m4)
    | theta => exact max_eq_right (mul_nonneg p5 m5)
    | lowAlpha => exact max_eq_right (mul_nonneg p6 m6)
    | highAlpha => exact max_eq_right (mul_nonneg p7 m7)
    | lowBeta => exact max_eq_right (mul_nonneg p8 m8)
    | highBeta => exact max_eq_right (mul_nonneg p9 m9)
    | lowGamma => exact max_eq_right (mul_nonneg p10 m10)
    | highGamma => exact max_eq_right (mul_nonneg p11 m11)
  · exact max_eq_right (le_refl 0)

lemma deriveLoop_chain (multi : EegFaultModel) :
    ∀ (n : Nat) (prev : EegFaultModel) (j : Nat),
      j + 1 + 1 ≤ (prev :: deriveLoop multi n prev).length →
      (prev :: deriveLoop multi n prev).getD (j + 1) default =
        nextFault ((prev :: deriveLoop multi n prev).getD j default) multi := by
  intro n
  induction n with
  | zero =>
    intro prev j h
    simp [deriveLoop] at h
  | succ n ih =>
    intro prev j h
    show (prev :: nextFault prev multi ::
        deriveLoop multi n (nextFault prev multi)).getD (j + 1) default = _
    cases j with
    | zero => rfl
    | succ j2 =>
      have h2 : j2 + 1 + 1 ≤ (nextFault prev multi ::
          deriveLoop multi n (nextFault prev multi)).length := by
        have h3 := h
        show j2 + 1 + 1 ≤ (deriveLoop multi n (nextFault prev multi)).length + 1
        have h4 : j2 + 1 + 1 + 1 ≤
            (deriveLoop multi n (nextFault prev multi)).length + 2 := by
          simpa [deriveLoop] using h3
        omega
      have := ih (nextFault prev multi) j2 h2
      rw [List.getD_cons_succ, List.getD_cons_succ]
      exact this

lemma deriveLoop_mem_nonneg (multi : EegFaultModel) :
    ∀ (n : Nat) (prev : EegFaultModel) (x : EegFaultModel),
      x ∈ deriveLoop multi n prev → x.Nonneg := by
  intro n
  induction n with
  | zero => intro prev x hx; simp [deriveLoop] at hx
  | succ n ih =>
    intro prev x hx
    simp only [deriveLoop, List.mem_cons] at hx
    rcases hx with h | h
    · subst h
      exact nextFault_nonneg _ _
    · exact ih _ x h

lemma deriveFaults_getD_nonneg (base multi : EegFaultModel) (mc : Int)
    (hb : base.Nonneg) (j : Nat) :
    ((deriveFaults base multi mc).getD j default).Nonneg := by
  rw [deriveFaults_def, List.getD_eq_getElem?_getD]
  cases h : (base :: deriveLoop multi (mc.toNat - 1) base)[j]? with
  | none => exact (by decide : (default : EegFaultModel).Nonneg)
  | some a =>
    have hmem := List.getElem?_mem h
    simp only [List.mem_cons] at hmem
    rcases hmem with hm1 | hm2
    · subst hm1; exact hb
    · exact deriveLoop_mem_nonneg multi _ base a hm2

/-- C9 (amended): every derived cascade level multiplies the previous
level elementwise by the multiplier profile over the *ten* fields
attention, meditation, delta, theta, low/high alpha, low/high beta,
low/high gamma — but not `signal`: `set_config_fault` omits `signal` when
constructing each derived `EegFaultModel`, so every derived level has
`signal = 0` regardless of the base and multiplier signal tolerances. -/
theorem claim9_cascade_elementwise_except_signal (base multi : EegFaultModel)
    (mc : Int) (hb : base.Nonneg) (hm : multi.Nonneg) :
    ∀ i, 0 < i → i < (deriveFaults base multi mc).length →
      (∀ F : EegField, F ≠ EegField.signal →
        ((deriveFaults base multi mc).getD i default).fld F =
          ((deriveFaults base multi mc).getD (i - 1) default).fld F *
            multi.fld F) ∧
      ((deriveFaults base multi mc).getD i default).fld EegField.signal = 0 := by
  intro i hi hilen
  obtain ⟨j, rfl⟩ : ∃ j, i = j + 1 := ⟨i - 1, by omega⟩
  have hprev : ((deriveFaults base multi mc).getD j default).Nonneg :=
    deriveFaults_getD_nonneg base multi mc hb j
  have hchain := deriveLoop_chain multi (mc.toNat - 1) base j
    (by rw [deriveFaults_def] at hilen; omega)
  rw [show j + 1 - 1 = j from by omega, deriveFaults_def, hchain,
    ← deriveFaults_def]
  exact ⟨fun F hF => (nextFault_fld _ multi hprev hm).1 F hF,
    (nextFault_fld _ multi hprev hm).2⟩

/-- Witness for C9: level 1 of the cascade derived from `faultA` and
`faultM` multiplies attention, and has signal 0. -/
theorem claim9_witness :
    ((deriveFaults faultA faultM 3).getD 1 default).fld EegField.attention =
      ((deriveFaults faultA faultM 3).getD (1 - 1) default).fld
        EegField.attention * faultM.fld EegField.attention ∧
    ((deriveFaults faultA faultM 3).getD 1 default).fld EegField.signal = 0 :=
  ⟨(claim9_cascade_elementwise_except_signal faultA faultM 3 (by decide)
      (by decide) 1 (by decide) (by decide)).1 EegField.attention (by decide),
   (claim9_cascade_elementwise_except_signal faultA faultM 3 (by decide)
      (by decide) 1 (by decide) (by decide)).2⟩

/-- C9 counterexample: with base and multiplier signal tolerances both 1,
the claim demands `profile[1].signal = 1 * 1 = 1`, but the derived level
has `signal = 0` — the code drops the signal field from the cascade. -/
theorem claim9_counterexample_signal_dropped :
    ((deriveFaults faultSig faultSig 2).getD 1 default).signal = 0 ∧
    faultSig.signal * faultSig.signal = 1 := by
  decide
